import Mathlib

/-
  Verification of the provider-routing backend
  (repository: ai-business-promoter-backend).

  The repository contains several near-duplicate Express servers.  The claims
  cite four of them:
    * `src/server.js`        — the "5 APIs" router (no timeout, no empty-body check);
    * `src/unnamed/part_004` — the "5 APIs" router with `withTimeout`, `buildPrompt`
                               and `generateFallback`;
    * `src/unnamed/part_000` — the tool/template router plus the gallery image route;
    * `src/unnamed/part_003` — the placeholder image route.

  This file is a shallow embedding of those handlers.  External effects are
  passed in explicitly:
    * `env`    — the process environment: the credential string of each provider
                 (`""` models both an unset and an empty variable, which are
                 equally falsy in the JS code);
    * `net`    — the outcome of one HTTP exchange with a provider, as a function
                 of the provider and the prompt string that was sent.  The value
                 is `(duration in ms, extraction result)`: `Except.error e`
                 models a rejected fetch / non-2xx branch (with `e` the thrown
                 message), `Except.ok r` models a 2xx response whose body-field
                 extraction produced `r` (`none` = the JS expression evaluated
                 to `undefined`, `some s` = the string `s`, possibly empty);
    * `rand`   — the value drawn from `Math.random`, given as the natural number
                 `rand` so that `rand % n` models `Math.floor(Math.random()*n)`;
    * `evalJs` — the JS `eval` builtin used by `part_004`'s math branch:
                 `some v` is the stringification of the evaluated result,
                 `none` models a thrown evaluation error.
-/

set_option maxRecDepth 100000

/-- The five provider identifiers: the keys of `API_CONFIG` in `server.js`
and `part_004`. -/
inductive ApiName
  | openrouter
  | huggingface
  | gemini
  | cohere
  | openai
deriving DecidableEq, Repr

/-- The JS object key (the `apiName` string used in loops, logs and
`apiUsed`). -/
def apiKeyString : ApiName → String
  | .openrouter => "openrouter"
  | .huggingface => "huggingface"
  | .gemini => "gemini"
  | .cohere => "cohere"
  | .openai => "openai"

/-- The label passed to `withTimeout` and used in part_004's
"No response generated from X" messages. -/
def apiLabel : ApiName → String
  | .openrouter => "OpenRouter"
  | .huggingface => "HuggingFace"
  | .gemini => "Gemini"
  | .cohere => "Cohere"
  | .openai => "OpenAI"

/-- Outcome of one HTTP exchange: response-arrival time in milliseconds and
the result of extracting the reply field from the response. -/
abbrev NetOutcome := Nat × Except String (Option String)

/-- The network oracle: outcome per provider and per prompt sent. -/
abbrev Net := ApiName → String → NetOutcome

/-- JS truthiness of the `response` value that the routing loops test with
`if (!response)`: `none` models `undefined`, `some ""` an empty string. -/
def truthy : Option String → Bool
  | none => false
  | some s => s ≠ ""

/-- `apiPreference !== "auto" && API_CONFIG[apiPreference]`: resolve the
preference string to a provider.  Only the five own-keys of `API_CONFIG`
resolve (prototype-inherited property names are not modelled). -/
def parseApi : String → Option ApiName := fun s =>
  if s = "openrouter" then some .openrouter
  else if s = "huggingface" then some .huggingface
  else if s = "gemini" then some .gemini
  else if s = "cohere" then some .cohere
  else if s = "openai" then some .openai
  else none

/-- The provider selected by the preference, `none` meaning the auto branch. -/
def preferredOf (pref : String) : Option ApiName :=
  if pref = "auto" then none else parseApi pref

/-- `server.js` `callSpecificAPI`: dispatch to the per-provider call.  Each
adapter throws on a rejected fetch or non-2xx response (the oracle supplies
the thrown message) and otherwise returns the extracted reply field verbatim
— with no empty-body check.  `callHuggingFace` alone substitutes the default
`"No response generated"` for a falsy `generated_text` (the `||` in
`data[0]?.generated_text || "No response generated"`).  The response-arrival
time is ignored: `server.js` awaits the fetch unconditionally, with no
timeout wrapper. -/
def serverCall (net : Net) (a : ApiName) (p : String) : Except String (Option String) :=
  match net a p with
  | (_, .error e) => .error e
  | (_, .ok r) =>
    if a = .huggingface then
      .ok (some (match r with
        | some s => if s = "" then "No response generated" else s
        | none => "No response generated"))
    else .ok r

/-- State produced by a routing loop: the `response` variable
(`none` = never assigned, `some v` = assigned the JS value `v`), the
`usedAPI` string, the `errorLog` entries and the provider calls actually
issued, each with the prompt that was sent. -/
structure LoopRes where
  response : Option (Option String)
  usedAPI : String
  errorLog : List String
  attempts : List (ApiName × String)
deriving DecidableEq, Repr

/-- The `apiOrder` of `server.js`'s auto branch. -/
def serverApiOrder : List ApiName :=
  [.openrouter, .huggingface, .gemini, .cohere, .openai]

/-- The auto loop of `server.js` (`for (const apiName of apiOrder)`):
a provider with no key logs `"<name>: No API key"` and is skipped; a call
that throws logs `"<name>: <message>"` and the loop continues; a call that
resolves assigns `response`/`usedAPI` and breaks — whatever the resolved
value is. -/
def serverAutoLoop (env : ApiName → String) (net : Net) (p : String) :
    List ApiName → LoopRes
  | [] => ⟨none, "", [], []⟩
  | a :: rest =>
    if env a = "" then
      let r := serverAutoLoop env net p rest
      ⟨r.response, r.usedAPI, (apiKeyString a ++ ": No API key") :: r.errorLog, r.attempts⟩
    else
      match serverCall net a p with
      | .error e =>
        let r := serverAutoLoop env net p rest
        ⟨r.response, r.usedAPI, (apiKeyString a ++ ": " ++ e) :: r.errorLog,
          (a, p) :: r.attempts⟩
      | .ok v => ⟨some v, apiKeyString a, [], [(a, p)]⟩

/-- The entry the `server.js` auto loop pushes onto `errorLog` for a provider
it passed over (keyless) or whose call threw. -/
def serverLogEntry (env : ApiName → String) (net : Net) (p : String) (b : ApiName) : String :=
  if env b = "" then apiKeyString b ++ ": No API key"
  else
    match serverCall net b p with
    | .error e => apiKeyString b ++ ": " ++ e
    | .ok _ => apiKeyString b ++ ": "

/-- What `/api/prompt` sends back to the caller.  `badRequest` is a
`res.status(400).json({error})`; `ok` is the 200 success body (`reply`,
`apiUsed`, `success: true`); `fallback` is the 200 fallback body
(`apiUsed: "fallback"`, `success: true`) with the internally caught error
message (`server.js` echoes it in the `error` field; `part_004` sends a
fixed note instead). -/
inductive PromptResponse
  | badRequest (error : String)
  | ok (reply : String) (apiUsed : String)
  | fallback (reply : String) (errMsg : String)
deriving DecidableEq, Repr

/-- The HTTP status code of a `/api/prompt` response. -/
def PromptResponse.status : PromptResponse → Nat
  | .badRequest _ => 400
  | .ok _ _ => 200
  | .fallback _ _ => 200

/-- The `success` field of the JSON body (absent, modelled `false`, for the
400 response). -/
def PromptResponse.success : PromptResponse → Bool
  | .badRequest _ => false
  | .ok _ _ => true
  | .fallback _ _ => true

/-- The `apiUsed` field of the JSON body. -/
def PromptResponse.apiUsedField : PromptResponse → Option String
  | .badRequest _ => none
  | .ok _ u => some u
  | .fallback _ _ => some "fallback"

/-- The reply of a fallback response, `none` for the other shapes. -/
def PromptResponse.fallbackReply : PromptResponse → Option String
  | .fallback b _ => some b
  | _ => none

/-- Result of one `/api/prompt` invocation: the response plus the observable
trace (calls issued with their prompts, and the `errorLog` variable). -/
structure RouteOutcome where
  response : PromptResponse
  attempts : List (ApiName × String)
  errorLog : List String
deriving DecidableEq, Repr

/-- The three `businessResponses` of `server.js`'s `generateSmartResponse`. -/
def businessResponses (prompt : String) : List String :=
  ["🚀 **Business Growth Content:**\n" ++ prompt ++ "\n\nThis professional marketing content is designed to elevate your brand and engage your target audience effectively. Perfect for social media campaigns and business promotion!\n\n#BusinessGrowth #Marketing #Success",
   "🎯 **Professional Marketing Copy:**\n" ++ prompt ++ "\n\nStrategic content crafted to drive results and build brand authority. Use this across all your digital platforms for maximum impact and customer engagement.\n\n#Marketing #Professional #Business",
   "✨ **Engaging Business Content:**\n" ++ prompt ++ "\n\nCompelling copy that converts viewers into customers and builds lasting relationships. Optimized for social media algorithms and audience engagement.\n\n#Engagement #Content #BusinessTips"]

/-- `server.js` `generateSmartResponse`: picks
`businessResponses[Math.floor(Math.random() * businessResponses.length)]`.
The random draw is the explicit input `rand`, indexed as `rand % 3`. -/
def generateSmartResponse (prompt : String) (rand : Nat) : String :=
  (businessResponses prompt).getD (rand % 3) ""

/-- The `POST /api/prompt` handler of `server.js`.
Control flow, from the source:
  * `if (!prompt) return 400 "Prompt is required"`;
  * preferred branch (`apiPreference !== "auto" && API_CONFIG[apiPreference]`):
    keyless → 400 `"<pref> API key not configured"`; otherwise one call —
    on throw the handler logs, rethrows `"Requested API failed: <msg>"`, and
    the outer catch answers 200 with the `generateSmartResponse` fallback;
  * auto branch: `serverAutoLoop` over `serverApiOrder`;
  * after either branch `if (!response) throw "All APIs failed: " + errorLog.join("; ")`,
    again landing in the outer catch (200 fallback);
  * otherwise 200 `{reply, apiUsed, success: true}`. -/
def serverRoute (env : ApiName → String) (net : Net) (rand : Nat)
    (prompt apiPreference : String) : RouteOutcome :=
  if prompt = "" then ⟨.badRequest "Prompt is required", [], []⟩
  else
    match preferredOf apiPreference with
    | some a =>
      if env a = "" then
        ⟨.badRequest (apiPreference ++ " API key not configured"), [], []⟩
      else
        match serverCall net a prompt with
        | .ok v =>
          if truthy v then
            ⟨.ok (v.getD "") apiPreference, [(a, prompt)], []⟩
          else
            ⟨.fallback (generateSmartResponse prompt rand)
              ("All APIs failed: " ++ String.intercalate "; " ([] : List String)),
              [(a, prompt)], []⟩
        | .error e =>
          ⟨.fallback (generateSmartResponse prompt rand) ("Requested API failed: " ++ e),
            [(a, prompt)], [apiPreference ++ ": " ++ e]⟩
    | none =>
      let r := serverAutoLoop env net prompt serverApiOrder
      match r.response with
      | some v =>
        if truthy v then ⟨.ok (v.getD "") r.usedAPI, r.attempts, r.errorLog⟩
        else
          ⟨.fallback (generateSmartResponse prompt rand)
            ("All APIs failed: " ++ String.intercalate "; " r.errorLog),
            r.attempts, r.errorLog⟩
      | none =>
        ⟨.fallback (generateSmartResponse prompt rand)
          ("All APIs failed: " ++ String.intercalate "; " r.errorLog),
          r.attempts, r.errorLog⟩

/- ## part_004: the fixed backend with timeouts and the prompt builder -/

/-- The whitespace class of JS `\s` (the common code points; the exotic
Unicode spaces do not occur in the claims' inputs). -/
def isJsSpace (c : Char) : Bool :=
  c = ' ' || c = '\t' || c = '\n' || c = '\r' || c = '\x0b' || c = '\x0c'

/-- The math-expression gate of part_004's `buildPrompt`:
`/^[0-9+\-*\/().\s]+$/.test(prompt)` — a non-empty string all of whose
characters are digits, arithmetic operators, parentheses, dots or
whitespace. -/
def isMathPrompt (s : String) : Bool :=
  s ≠ "" && s.toList.all fun c =>
    c.isDigit || c = '+' || c = '-' || c = '*' || c = '/' ||
    c = '(' || c = ')' || c = '.' || isJsSpace c

/-- part_004 `buildPrompt`.  `evalJs` is the JS `eval` builtin: `some v` is
the interpolation `${result}` of the evaluated value, `none` a thrown
evaluation error. -/
def buildPrompt (evalJs : String → Option String) (prompt template : String)
    (isTest : Bool) : String :=
  if isTest then "Hello, are you working? Respond with \x27OK\x27 if working."
  else if isMathPrompt prompt then
    match evalJs prompt with
    | some v => "The result of " ++ prompt ++ " is " ++ v
    | none => "Invalid math expression: " ++ prompt
  else if template ≠ "" && template.trim ≠ "" && template ≠ "default" then
    "\nYou are a professional marketing copywriter.\nCreate a high-quality, ready-to-post " ++ template ++ " based on the user\x27s input.\n\n🧠 Input: " ++ prompt ++ "\n\n🎯 Requirements:\n- Write a complete " ++ template ++ " (not instructions)\n- Make it engaging, creative and easy to read\n- Add emojis and hashtags naturally if suitable\n- Return only the final " ++ template ++ " text (no explanations)\n    "
  else
    "\nYou are a helpful creative AI writer.\nGenerate a natural, well-written and complete answer for this prompt.\n\n🧠 Input: " ++ prompt ++ "\n\n🎯 Requirements:\n- Write in a clear and friendly way\n- If it\x27s a question, answer it directly\n- If it\x27s a statement, expand it meaningfully\n- Return plain text (no extra instructions)\n    "

/-- part_004 `callSpecificAPI`: every dispatch is wrapped in
`withTimeout(call, isTest ? 5000 : 15000, label)`, a `Promise.race` of the
call against `setTimeout`.  If the response arrives before the bound the
call's own outcome stands: a rejected fetch / non-2xx throws, an extracted
reply that is `undefined` or `""` throws `"No response generated from X"`,
and otherwise the reply is returned (`isTest` replaces it by `"OK"`, and
Cohere's adapter returns `reply.trim()`).  At or beyond the bound the race
is settled by the timeout rejection.  (`creativity` only sets the
`temperature` field of the request body, so it does not appear here.) -/
def callSpecificAPI004 (net : Net) (a : ApiName) (p : String) (isTest : Bool) :
    Except String String :=
  let timeout := if isTest then 5000 else 15000
  match net a p with
  | (d, r) =>
    if d < timeout then
      match r with
      | .error e => .error e
      | .ok none => .error ("No response generated from " ++ apiLabel a)
      | .ok (some s) =>
        if s = "" then .error ("No response generated from " ++ apiLabel a)
        else .ok (if isTest then "OK" else if a = .cohere then s.trim else s)
    else .error (apiLabel a ++ " timeout after " ++ toString timeout ++ "ms")

/-- The `apiOrder` of part_004's auto branch (it differs from `server.js`). -/
def apiOrder004 : List ApiName :=
  [.openai, .gemini, .cohere, .openrouter, .huggingface]

/-- The auto loop of part_004: a keyless provider is skipped silently
(`if (!API_CONFIG[apiName].key) continue` — no log), a throwing call is
logged only to the console and the loop continues, a resolving call assigns
`response`/`usedAPI` and breaks. -/
def autoLoop004 (env : ApiName → String) (net : Net) (p : String) :
    List ApiName → LoopRes
  | [] => ⟨none, "", [], []⟩
  | a :: rest =>
    if env a = "" then autoLoop004 env net p rest
    else
      match callSpecificAPI004 net a p false with
      | .error _ =>
        let r := autoLoop004 env net p rest
        ⟨r.response, r.usedAPI, r.errorLog, (a, p) :: r.attempts⟩
      | .ok s => ⟨some (some s), apiKeyString a, [], [(a, p)]⟩

/-- part_004 `generateFallback`: the static `templates` map. -/
def fallbackTemplates (prompt : String) : List (String × String) :=
  [("facebook", "🚀 **Facebook Post:** " ++ prompt ++ "\n\nEngage your audience with this compelling content! Perfect for building community and driving interactions. 💬\n\n#BusinessGrowth #SocialMedia #Marketing"),
   ("instagram", "✨ **Instagram Caption:** " ++ prompt ++ "\n\nVisual storytelling at its finest! This caption will make your content stand out and connect with your followers. 📸\n\n#Instagram #ContentCreator #VisualStorytelling"),
   ("twitter", "🐦 **Twitter Post:** " ++ prompt ++ "\n\nShort, impactful, and ready to trend! Perfect for starting conversations and building your Twitter presence. 🔥\n\n#Twitter #Engagement #Trending"),
   ("email", "📧 **Marketing Email:** " ++ prompt ++ "\n\nProfessional and persuasive email content designed to convert readers into customers and build lasting relationships. 💼\n\n#EmailMarketing #Business #Conversion"),
   ("product", "🛍️ **Product Description:** " ++ prompt ++ "\n\nHighlighting features, benefits, and unique selling points that will make customers excited to purchase! 🌟\n\n#Product #Ecommerce #Sales"),
   ("adcopy", "🎯 **Ad Copy:** " ++ prompt ++ "\n\nAttention-grabbing, persuasive, and conversion-focused advertising content that drives results! 📊\n\n#Advertising #Marketing #ROI"),
   ("blog", "📝 **Blog Post:** " ++ prompt ++ "\n\nWell-researched, engaging, and SEO-friendly content that establishes authority and provides real value to readers. 🎓\n\n#Blogging #Content #SEO"),
   ("video", "🎥 **Video Script:** " ++ prompt ++ "\n\nEngaging narrative with clear visual cues and compelling dialogue that keeps viewers watching till the end! 🎬\n\n#VideoMarketing #Content #Storytelling"),
   ("default", "🤖 **AI Response:** " ++ prompt ++ "\n\nThis is a smart, well-crafted response that provides valuable insights and helpful information. 💡\n\n#AI #Assistant #Helpful")]

/-- part_004 `generateFallback(prompt, template)`:
`templates[template] || templates.default` — a pure function of
`(prompt, template)`. -/
def generateFallback (prompt template : String) : String :=
  match (fallbackTemplates prompt).lookup template with
  | some s => s
  | none =>
    "🤖 **AI Response:** " ++ prompt ++ "\n\nThis is a smart, well-crafted response that provides valuable insights and helpful information. 💡\n\n#AI #Assistant #Helpful"

/-- The `POST /api/prompt` handler of part_004.
Control flow, from the source:
  * `if (!prompt) return 400 "Prompt is required"`;
  * `finalPrompt = buildPrompt(prompt, template)`;
  * preferred branch: keyless → `throw "<pref> API key not configured"`
    (caught below — unlike `server.js` there is no 400 here); otherwise one
    `callSpecificAPI` whose rejection propagates to the catch;
  * auto branch: `autoLoop004` over `apiOrder004`;
  * `if (!response) throw "All APIs failed to generate response"`;
  * the catch answers 200 with `generateFallback(prompt, template)` and
    `apiUsed: "fallback"`;
  * otherwise 200 `{reply, apiUsed, success: true}`. -/
def route004 (env : ApiName → String) (net : Net) (evalJs : String → Option String)
    (_creativity : Nat) (prompt apiPreference template : String) : RouteOutcome :=
  if prompt = "" then ⟨.badRequest "Prompt is required", [], []⟩
  else
    let finalPrompt := buildPrompt evalJs prompt template false
    match preferredOf apiPreference with
    | some a =>
      if env a = "" then
        ⟨.fallback (generateFallback prompt template)
          (apiPreference ++ " API key not configured"), [], []⟩
      else
        match callSpecificAPI004 net a finalPrompt false with
        | .ok s =>
          if s ≠ "" then ⟨.ok s apiPreference, [(a, finalPrompt)], []⟩
          else
            ⟨.fallback (generateFallback prompt template)
              "All APIs failed to generate response", [(a, finalPrompt)], []⟩
        | .error e =>
          ⟨.fallback (generateFallback prompt template) e, [(a, finalPrompt)], []⟩
    | none =>
      let r := autoLoop004 env net finalPrompt apiOrder004
      match r.response with
      | some v =>
        if truthy v then ⟨.ok (v.getD "") r.usedAPI, r.attempts, r.errorLog⟩
        else
          ⟨.fallback (generateFallback prompt template)
            "All APIs failed to generate response", r.attempts, r.errorLog⟩
      | none =>
        ⟨.fallback (generateFallback prompt template)
          "All APIs failed to generate response", r.attempts, r.errorLog⟩

/- ## part_000: tool/template router and the gallery image route -/

/-- JS `x || d` on strings: the default `d` replaces the falsy `""`. -/
def jsOr (s d : String) : String := if s = "" then d else s

/-- part_000's request body for `/api/prompt` (all fields are strings except
`creativity`; an absent field is the falsy `""` / `0`). -/
structure Req000 where
  prompt : String
  tool : String
  action : String
  template : String
  tone : String
  lengthHint : String
  businessType : String
  creativity : Nat
deriving DecidableEq, Repr

/-- part_000 `buildToolPrompt(tool, text)` (the switch is on
`(tool || "").toLowerCase()`). -/
def buildToolPrompt000 (tool text : String) : String :=
  let t := tool.toLower
  if t = "rephrase" then
    "Rephrase this marketing copy to be more engaging and concise. Preserve meaning:\n\n" ++ text
  else if t = "translate_hinglish" then
    "Translate the following into Hinglish (Hindi in Latin script) while keeping meaning and tone:\n\n" ++ text
  else if t = "hashtags" then
    "Extract up to 10 short relevant marketing hashtags (comma separated, no #) from:\n\n" ++ text
  else if t = "shorten" then
    "Shorten this content to a social media caption <= 25 words:\n\n" ++ text
  else if t = "expand" then
    "Expand this marketing text with details and benefits. Keep it persuasive:\n\n" ++ text
  else text

/-- The full-template prompt part_000 builds when no tool is requested. -/
def finalPrompt000 (r : Req000) : String :=
  "\n🎯 Template: " ++ jsOr r.template "Custom" ++
  "\n🏢 Business Type: " ++ jsOr r.businessType "General" ++
  "\n💬 Tone: " ++ jsOr r.tone "Casual" ++
  "\n📏 Length: " ++ jsOr r.lengthHint "Medium" ++
  "\n🌈 Creativity: " ++ toString (if r.creativity = 0 then 70 else r.creativity) ++
  "%\n🧠 User Prompt:\n" ++ r.prompt ++
  "\n\n➡️ Generate creative, brand-relevant marketing content. Provide short caption, 3 hashtags (with #), and a longer description. Keep output readable and separated with headings.\n"

/-- part_000 `callOpenRouter(finalPrompt, maxTokens)`: throws
`"OPENROUTER_API_KEY not configured"` before any fetch when the key is
falsy; otherwise one fetch whose rejection / non-2xx throws and whose 2xx
reply is `output || ""`.  The Boolean records whether a fetch was issued.
`net000` maps the prompt that was sent to the outcome of the exchange. -/
def callOpenRouter000 (key : String) (net000 : String → Except String (Option String))
    (finalPrompt : String) : Except String String × Bool :=
  if key = "" then (.error "OPENROUTER_API_KEY not configured", false)
  else
    match net000 finalPrompt with
    | .error e => (.error e, true)
    | .ok out => (.ok (out.getD ""), true)

/-- part_000's response for `/api/prompt`: 400 `{error}`, 500
`{error: "Prompt failed", details}`, or 200 `{output}`. -/
inductive Response000
  | badRequest (error : String)
  | serverError (error : String)
  | ok (output : String)
deriving DecidableEq, Repr

/-- HTTP status of a part_000 prompt response. -/
def Response000.status : Response000 → Nat
  | .badRequest _ => 400
  | .serverError _ => 500
  | .ok _ => 200

/-- The `POST /api/prompt` handler of part_000.  Note the guard is
`if (!prompt && !tool)`: a request that supplies a `tool` is not rejected
even when its `prompt` is empty.  The Boolean of the result records whether
a provider fetch was issued. -/
def route000 (key : String) (net000 : String → Except String (Option String))
    (r : Req000) : Response000 × Bool :=
  if r.prompt = "" ∧ r.tool = "" then (.badRequest "Missing prompt", false)
  else if r.action = "tool" ∨ r.tool ≠ "" then
    match callOpenRouter000 key net000 (buildToolPrompt000 r.tool r.prompt) with
    | (.error _, att) => (.serverError "Prompt failed", att)
    | (.ok out, att) => (.ok out, att)
  else
    match callOpenRouter000 key net000 (finalPrompt000 r) with
    | (.error _, att) => (.serverError "Prompt failed", att)
    | (.ok out, att) => (.ok out, att)

/- ## The image routes -/

/-- Hexadecimal digit (upper case), for percent-encoding. -/
def hexChar (n : Nat) : Char :=
  if n < 10 then Char.ofNat (48 + n) else Char.ofNat (55 + n)

/-- UTF-8 bytes of a character. -/
def utf8BytesOf (c : Char) : List Nat :=
  let n := c.toNat
  if n < 128 then [n]
  else if n < 2048 then [192 + n / 64, 128 + n % 64]
  else if n < 65536 then [224 + n / 4096, 128 + (n / 64) % 64, 128 + n % 64]
  else [240 + n / 262144, 128 + (n / 4096) % 64, 128 + (n / 64) % 64, 128 + n % 64]

/-- The characters `encodeURIComponent` leaves unescaped. -/
def uriUnreserved (c : Char) : Bool :=
  c.isAlphanum || c = '-' || c = '_' || c = '.' || c = '!' || c = '~' ||
  c = '*' || c = '\x27' || c = '(' || c = ')'

/-- JS `encodeURIComponent`. -/
def encodeURIComponent (s : String) : String :=
  s.toList.foldl
    (fun acc c =>
      if uriUnreserved c then acc.push c
      else
        acc ++ String.join ((utf8BytesOf c).map
          (fun b => String.mk ['%', hexChar (b / 16), hexChar (b % 16)])))
    ""

/-- An image-route response: 400 `{error}`, 200 `{images, source}`, or 500
`{error}` (part_000's outer catch; unreachable in this model but part of
the handler). -/
inductive ImageResponse
  | badRequest (error : String)
  | ok (images : List String) (source : String)
  | serverError (error : String)
deriving DecidableEq, Repr

/-- HTTP status of an image response. -/
def ImageResponse.statusCode : ImageResponse → Nat
  | .badRequest _ => 400
  | .ok _ _ => 200
  | .serverError _ => 500

/-- The `source` field of an image response. -/
def ImageResponse.sourceOf : ImageResponse → Option String
  | .ok _ s => some s
  | _ => none

/-- The `images` field of an image response. -/
def ImageResponse.imagesOf : ImageResponse → Option (List String)
  | .ok l _ => some l
  | _ => none

/-- The `POST /api/image` handler of part_000.  `gallery` is the parsed
`gallery_manifest.json` (`none` models `fs.readFileSync`/`JSON.parse`
throwing, which the inner catch turns into the placeholder).  The category
is `(template || "general").toLowerCase()`, the array is
`gallery[cat] || gallery["general"] || []` (an empty array is truthy in JS,
so a present-but-empty category does not fall through to `general`), and a
non-empty array yields a uniformly drawn member with `source: "gallery"`;
everything else yields the `placehold.co` URL with `source: "placeholder"`. -/
def imageRoute000 (gallery : Option (List (String × List String))) (rand : Nat)
    (prompt template : String) : ImageResponse :=
  if prompt = "" then .badRequest "No prompt"
  else
    let cat := (jsOr template "general").toLower
    let arr : List String :=
      match gallery with
      | none => []
      | some g =>
        match g.lookup cat with
        | some l => l
        | none =>
          match g.lookup "general" with
          | some l => l
          | none => []
    if arr.length > 0 then
      .ok [arr.getD (rand % arr.length) ""] "gallery"
    else
      .ok ["https://placehold.co/1024x1024?text=" ++ encodeURIComponent prompt]
        "placeholder"

/-- part_003's image response: `res.status(400).send(text)` or 200
`{images}` — it has no `source` field. -/
inductive Response003Img
  | badRequest (message : String)
  | ok (images : List String)
deriving DecidableEq, Repr

/-- HTTP status of a part_003 image response. -/
def Response003Img.statusCode : Response003Img → Nat
  | .badRequest _ => 400
  | .ok _ => 200

/-- The `POST /api/image` handler of part_003: always the placeholder URL
built from the first 40 characters of the prompt. -/
def imageRoute003 (prompt : String) : Response003Img :=
  if prompt = "" then .badRequest "No image prompt provided."
  else
    .ok ["https://via.placeholder.com/512x512.png?text=" ++
      encodeURIComponent (prompt.take 40)]

/- ## Concrete environments and oracles used in the examples below -/

/-- Every provider has a credential. -/
def envAll : ApiName → String := fun _ => "k"

/-- No provider has a credential. -/
def envNone : ApiName → String := fun _ => ""

/-- Only `openrouter` has a credential. -/
def envPrefOR : ApiName → String := fun a =>
  match a with | .openrouter => "k" | _ => ""

/-- Only `gemini` has a credential. -/
def envG : ApiName → String := fun a =>
  match a with | .gemini => "k" | _ => ""

/-- `huggingface` and `gemini` have credentials; `openrouter` (first in
`server.js`'s order) does not. -/
def envC1w : ApiName → String := fun a =>
  match a with | .huggingface => "k" | .gemini => "k" | _ => ""

/-- `gemini` and `cohere` have credentials, the rest do not. -/
def envC1x : ApiName → String := fun a =>
  match a with | .gemini => "k" | .cohere => "k" | _ => ""

/-- `openrouter` and `huggingface` have credentials, the rest do not. -/
def envC7x : ApiName → String := fun a =>
  match a with | .openrouter => "k" | .huggingface => "k" | _ => ""

/-- `openai` and `gemini` have credentials, the rest do not. -/
def envOG : ApiName → String := fun a =>
  match a with | .openai => "k" | .gemini => "k" | _ => ""

/-- Every exchange fails fast with the message `"down"`. -/
def netErr : Net := fun _ _ => (0, .error "down")

/-- Every exchange fails fast with the message `"boom"`. -/
def netBoom : Net := fun _ _ => (0, .error "boom")

/-- Every exchange promptly yields the reply `"ok"`. -/
def netOkAll : Net := fun _ _ => (0, .ok (some "ok"))

/-- `huggingface` rejects with `"boom"`, `gemini` replies `"ok"`. -/
def netC1w : Net := fun a _ =>
  match a with
  | .huggingface => (0, .error "boom")
  | .gemini => (0, .ok (some "ok"))
  | _ => (0, .error "x")

/-- `gemini` resolves with an empty reply, `cohere` would reply `"later"`. -/
def netC1x : Net := fun a _ =>
  match a with
  | .gemini => (0, .ok (some ""))
  | .cohere => (0, .ok (some "later"))
  | _ => (0, .error "x")

/-- `openrouter` resolves with an empty reply, `huggingface` would reply
`"hello"`. -/
def netC7x : Net := fun a _ =>
  match a with
  | .openrouter => (0, .ok (some ""))
  | .huggingface => (0, .ok (some "hello"))
  | _ => (0, .error "x")

/-- `openai` resolves promptly but with an empty reply; `gemini` replies
`"reply"`. -/
def netEmptyOpenai : Net := fun a _ =>
  match a with
  | .openai => (100, .ok (some ""))
  | .gemini => (100, .ok (some "reply"))
  | _ => (0, .error "x")

/-- `openai`'s response only arrives after 20000 ms (beyond part_004's
15000 ms bound); `gemini` replies promptly. -/
def netTimeoutOpenai : Net := fun a _ =>
  match a with
  | .openai => (20000, .ok (some "x"))
  | .gemini => (100, .ok (some "reply"))
  | _ => (0, .error "x")

/-- `openrouter`'s response arrives after 10^9 ms — far beyond any
per-provider bound — and carries the reply `"late"`. -/
def netSlow : Net := fun a _ =>
  match a with
  | .openrouter => (1000000000, .ok (some "late"))
  | _ => (0, .error "x")

/-- A part_000 exchange that replies `"tags"` to every prompt. -/
def net000Tags : String → Except String (Option String) := fun _ => .ok (some "tags")

/-- A part_000 request with an empty prompt but a tool selected. -/
def reqToolOnly : Req000 := ⟨"", "hashtags", "", "", "", "", "", 70⟩

/-- A gallery manifest with two images in the `general` category. -/
def galleryW : Option (List (String × List String)) := some [("general", ["u1", "u2"])]

/-- A JS `eval` oracle that always throws. -/
def evalNone : String → Option String := fun _ => none

/-- A JS `eval` oracle for the session of interest: `eval("2+3")` is `5`. -/
def evalC10 : String → Option String := fun s =>
  if s = "2+3" then some "5" else none

/- ## Shared lemmas about the loops and the call wrappers -/

/-- A resolved exchange of a provider other than Hugging Face passes the
extracted reply through unchanged. -/
theorem serverCall_not_hf (net : Net) (a : ApiName) (p : String) (d : Nat)
    (r : Option String) (h : net a p = (d, .ok r)) (ha : a ≠ .huggingface) :
    serverCall net a p = .ok r := by
  simp [serverCall, h, ha]

/-- A rejected exchange makes the `server.js` adapter throw the oracle's
message. -/
theorem serverCall_err (net : Net) (a : ApiName) (p : String) (d : Nat)
    (e : String) (h : net a p = (d, .error e)) :
    serverCall net a p = .error e := by
  simp [serverCall, h]

/-- `server.js` auto loop, first resolving provider: if every earlier
provider is keyless or throws, and `a` has a key and resolves with `v`, the
loop stops at `a` with exactly one log entry per earlier provider, in order,
and one issued call per earlier keyed provider plus the call to `a`. -/
theorem serverAutoLoop_first_success (env : ApiName → String) (net : Net) (p : String) :
    ∀ (pre : List ApiName) (a : ApiName) (post : List ApiName) (v : Option String),
      (∀ b ∈ pre, env b = "" ∨ ∃ e, serverCall net b p = .error e) →
      env a ≠ "" → serverCall net a p = .ok v →
      serverAutoLoop env net p (pre ++ a :: post) =
        ⟨some v, apiKeyString a, pre.map (serverLogEntry env net p),
          ((pre.filter fun b => env b != "").map fun b => ((b, p) : ApiName × String))
            ++ [(a, p)]⟩ := by
  intro pre
  induction pre with
  | nil =>
    intro a post v _ hak hcall
    simp [serverAutoLoop, if_neg hak, hcall]
  | cons b pre ih =>
    intro a post v hpre hak hcall
    have hb := hpre b (by simp)
    have hpre' : ∀ c ∈ pre, env c = "" ∨ ∃ e, serverCall net c p = .error e :=
      fun c hc => hpre c (by simp [hc])
    have H := ih a post v hpre' hak hcall
    by_cases hbk : env b = ""
    · simp [List.cons_append, serverAutoLoop, if_pos hbk, H, serverLogEntry, hbk]
    · rcases hb with h | ⟨e, he⟩
      · exact absurd h hbk
      · simp [List.cons_append, serverAutoLoop, if_neg hbk, he, H, serverLogEntry, hbk]

/-- `server.js` auto loop: if every provider in the list is keyless or
throws, the `response` variable is never assigned. -/
theorem serverAutoLoop_exhausted (env : ApiName → String) (net : Net) (p : String) :
    ∀ l : List ApiName,
      (∀ b ∈ l, env b = "" ∨ ∃ e, serverCall net b p = .error e) →
      (serverAutoLoop env net p l).response = none := by
  intro l
  induction l with
  | nil => intro _; rfl
  | cons b rest ih =>
    intro h
    have hb := h b (by simp)
    have h' : ∀ c ∈ rest, env c = "" ∨ ∃ e, serverCall net c p = .error e :=
      fun c hc => h c (by simp [hc])
    by_cases hbk : env b = ""
    · simp [serverAutoLoop, if_pos hbk, ih h']
    · rcases hb with hh | ⟨e, he⟩
      · exact absurd hh hbk
      · simp [serverAutoLoop, if_neg hbk, he, ih h']

/-- part_004 auto loop: if every call fails, `response` is never assigned. -/
theorem autoLoop004_exhausted (env : ApiName → String) (net : Net) (p : String)
    (h : ∀ b, ∃ e, callSpecificAPI004 net b p false = .error e) :
    ∀ l : List ApiName, (autoLoop004 env net p l).response = none := by
  intro l
  induction l with
  | nil => rfl
  | cons b rest ih =>
    by_cases hbk : env b = ""
    · simp [autoLoop004, if_pos hbk, ih]
    · obtain ⟨e, he⟩ := h b
      simp [autoLoop004, if_neg hbk, he, ih]

/-- part_004 auto loop: every call it issues carries the loop's prompt. -/
theorem autoLoop004_attempts_prompt (env : ApiName → String) (net : Net) (p : String) :
    ∀ l : List ApiName, ∀ q ∈ (autoLoop004 env net p l).attempts, q.2 = p := by
  intro l
  induction l with
  | nil => intro q hq; simp [autoLoop004] at hq
  | cons b rest ih =>
    intro q hq
    by_cases hbk : env b = ""
    · rw [show autoLoop004 env net p (b :: rest) = autoLoop004 env net p rest from by
        simp [autoLoop004, if_pos hbk]] at hq
      exact ih q hq
    · cases hcall : callSpecificAPI004 net b p false with
      | error e =>
        simp only [autoLoop004, if_neg hbk, hcall] at hq
        rcases List.mem_cons.mp hq with h | h
        · rw [h]
        · exact ih q h
      | ok s =>
        simp only [autoLoop004, if_neg hbk, hcall, List.mem_singleton] at hq
        rw [hq]

/-- part_004 call wrapper: a response that arrives after the 15000 ms bound
loses the `Promise.race` and surfaces as the timeout rejection, whatever its
content. -/
theorem callSpecificAPI004_timeout (net : Net) (a : ApiName) (p : String)
    (d : Nat) (x : Except String (Option String)) (h : net a p = (d, x))
    (hd : 15000 ≤ d) :
    callSpecificAPI004 net a p false =
      .error (apiLabel a ++ " timeout after " ++ toString 15000 ++ "ms") := by
  simp [callSpecificAPI004, h, Nat.not_lt.mpr hd]

/-- part_004 call wrapper: a prompt response with a non-empty reply from a
provider other than Cohere is returned as is. -/
theorem callSpecificAPI004_ok (net : Net) (a : ApiName) (p : String)
    (d : Nat) (s : String) (h : net a p = (d, .ok (some s))) (hd : d < 15000)
    (hs : s ≠ "") (ha : a ≠ .cohere) :
    callSpecificAPI004 net a p false = .ok s := by
  simp [callSpecificAPI004, h, hd, hs, ha]

/-- part_004 call wrapper: a prompt response whose extracted reply is the
empty string is this provider's failure. -/
theorem callSpecificAPI004_empty (net : Net) (a : ApiName) (p : String)
    (d : Nat) (h : net a p = (d, .ok (some ""))) (hd : d < 15000) :
    callSpecificAPI004 net a p false =
      .error ("No response generated from " ++ apiLabel a) := by
  simp [callSpecificAPI004, h, hd]

/-- part_004 call wrapper: a prompt rejection is passed through. -/
theorem callSpecificAPI004_err (net : Net) (a : ApiName) (p : String)
    (d : Nat) (e : String) (h : net a p = (d, .error e)) (hd : d < 15000) :
    callSpecificAPI004 net a p false = .error e := by
  simp [callSpecificAPI004, h, hd]

/- ## Claim C1 -/

/-- Claim C1 is false as stated: in `server.js`, with `gemini` and `cohere`
the only credentialed providers, `gemini` resolving with an empty body and
`cohere` set to succeed with `"later"`, the router returns the 200 fallback
— it returns neither the result of the first resolving provider (`gemini`)
nor that of the first provider succeeding with a non-empty body (`cohere`,
which is never attempted), and no log entry records `gemini`. -/
theorem c1_counterexample :
    serverRoute envC1x netC1x 0 "hi" "auto" =
      ⟨.fallback (generateSmartResponse "hi" 0)
          "All APIs failed: openrouter: No API key; huggingface: No API key",
        [(.gemini, "hi")],
        ["openrouter: No API key", "huggingface: No API key"]⟩ ∧
    envC1x .cohere ≠ "" ∧ serverCall netC1x .cohere "hi" = .ok (some "later") := by
  refine ⟨by decide, by decide, rfl⟩

/-- Claim C1 (amended): with no preferred provider, when every provider
before `a` in `server.js`'s priority order is keyless or fails outright and
`a` has a credential and resolves with a non-empty body, the router answers
200 naming `a`, the error log holds exactly one entry per earlier provider
(in priority order; keyless providers are logged as `"No API key"`), and
the calls issued are exactly the earlier credentialed providers followed by
`a`.  (If a provider resolves with an empty body the loop instead stops and
the request degrades to the fallback — the subject of claim C7.) -/
theorem c1_amended_first_success (env : ApiName → String) (net : Net) (rand : Nat)
    (p : String) (pre : List ApiName) (a : ApiName) (post : List ApiName) (s : String)
    (hp : p ≠ "")
    (horder : serverApiOrder = pre ++ a :: post)
    (hpre : ∀ b ∈ pre, env b = "" ∨ ∃ e, serverCall net b p = .error e)
    (hak : env a ≠ "") (hcall : serverCall net a p = .ok (some s)) (hs : s ≠ "") :
    serverRoute env net rand p "auto" =
      ⟨.ok s (apiKeyString a),
        ((pre.filter fun b => env b != "").map fun b => ((b, p) : ApiName × String))
          ++ [(a, p)],
        pre.map (serverLogEntry env net p)⟩ := by
  have H := serverAutoLoop_first_success env net p pre a post (some s) hpre hak hcall
  simp [serverRoute, if_neg hp, preferredOf, horder, H, truthy, hs]

/-- Witness for C1's amended theorem: `openrouter` keyless, `huggingface`
failing, `gemini` succeeding with `"ok"`. -/
theorem c1_amended_witness :
    serverRoute envC1w netC1w 0 "hi" "auto" =
      ⟨.ok "ok" (apiKeyString .gemini),
        ((([.openrouter, .huggingface] : List ApiName).filter
            fun b => envC1w b != "").map fun b => ((b, "hi") : ApiName × String))
          ++ [(.gemini, "hi")],
        ([.openrouter, .huggingface] : List ApiName).map
          (serverLogEntry envC1w netC1w "hi")⟩ :=
  c1_amended_first_success envC1w netC1w 0 "hi" [.openrouter, .huggingface] .gemini
    [.cohere, .openai] "ok" (by decide) rfl
    (fun b hb => by
      rcases List.mem_cons.mp hb with h | h
      · exact Or.inl (by rw [h]; rfl)
      · rcases List.mem_cons.mp h with h2 | h2
        · exact Or.inr ⟨"boom", by rw [h2]; rfl⟩
        · simp at h2)
    (by decide) rfl (by decide)

/- ## Claim C2 -/

/-- Claim C2 is false as stated: `"openrouter"` is a key of `API_CONFIG`,
yet when its credential is missing `server.js` answers 400 before any call —
zero providers are attempted, not exactly one. -/
theorem c2_counterexample :
    (serverRoute envNone netErr 0 "hi" "openrouter").attempts = [] ∧
    serverRoute envNone netErr 0 "hi" "openrouter" =
      ⟨.badRequest "openrouter API key not configured", [], []⟩ := by
  exact ⟨rfl, by decide⟩

/-- Claim C2 (amended): a request naming a configured provider causes at
most one provider call, always to the named provider: exactly one when its
credential is configured, none when it is missing (`server.js` then answers
400, part_004 falls back) — in both routers, and however the call turns
out. -/
theorem c2_amended_preferred_attempts :
    (∀ (env : ApiName → String) (net : Net) (rand : Nat) (p pref : String) (a : ApiName),
      p ≠ "" → preferredOf pref = some a →
      (serverRoute env net rand p pref).attempts =
        if env a = "" then [] else [(a, p)]) ∧
    (∀ (env : ApiName → String) (net : Net) (evalJs : String → Option String)
        (c : Nat) (p pref t : String) (a : ApiName),
      p ≠ "" → preferredOf pref = some a →
      (route004 env net evalJs c p pref t).attempts =
        if env a = "" then [] else [(a, buildPrompt evalJs p t false)]) := by
  constructor
  · intro env net rand p pref a hp hpref
    simp only [serverRoute, if_neg hp, hpref]
    by_cases hk : env a = ""
    · simp [hk]
    · rw [if_neg hk]
      cases h : serverCall net a p with
      | ok v =>
        simp only [h]
        by_cases hv : truthy v <;> simp [hv, hk]
      | error e => simp [h, hk]
  · intro env net evalJs c p pref t a hp hpref
    simp only [route004, if_neg hp, hpref]
    by_cases hk : env a = ""
    · simp [hk]
    · rw [if_neg hk]
      cases h : callSpecificAPI004 net a (buildPrompt evalJs p t false) false with
      | ok s =>
        simp only [h]
        by_cases hs : s = "" <;> simp [hs, hk]
      | error e => simp [h, hk]

/-- Witness for C2's amended theorem: preference `"cohere"` with every
credential configured, in both routers. -/
theorem c2_amended_witness :
    (serverRoute envAll netErr 0 "hi" "cohere").attempts =
      (if envAll .cohere = "" then [] else [(.cohere, "hi")]) ∧
    (route004 envAll netErr evalNone 70 "hi" "cohere" "default").attempts =
      (if envAll .cohere = "" then []
       else [(.cohere, buildPrompt evalNone "hi" "default" false)]) :=
  ⟨c2_amended_preferred_attempts.1 envAll netErr 0 "hi" "cohere" .cohere
      (by decide) rfl,
   c2_amended_preferred_attempts.2 envAll netErr evalNone 70 "hi" "cohere" "default"
      .cohere (by decide) rfl⟩

/- ## Claim C3 -/

/-- Claim C3 is false in its second half: in `server.js`, when the pinned
`openrouter` has a credential and its call fails, no other provider is
attempted — but the failure reaches the caller as a 200 response with
`success: true` and `apiUsed: "fallback"` (the error text only rides along
in the `error` field), not as an error naming the provider. -/
theorem c3_counterexample :
    serverRoute envPrefOR netBoom 0 "hi" "openrouter" =
      ⟨.fallback (generateSmartResponse "hi" 0) "Requested API failed: boom",
        [(.openrouter, "hi")], ["openrouter: boom"]⟩ ∧
    (serverRoute envPrefOR netBoom 0 "hi" "openrouter").response.status = 200 ∧
    (serverRoute envPrefOR netBoom 0 "hi" "openrouter").response.success = true ∧
    (serverRoute envPrefOR netBoom 0 "hi" "openrouter").response.apiUsedField =
      some "fallback" := by
  exact ⟨by decide, by decide, by decide, by decide⟩

/-- Claim C3 (amended): when the pinned provider has a credential and its
call fails, no fallback to another provider occurs — the named provider is
the only one attempted — but the failure is reported inside a 200 fallback
response (`server.js` carries `"Requested API failed: <message>"` in its
`error` field; part_004 only a fixed note), not as an error response. -/
theorem c3_amended_preferred_failure :
    (∀ (env : ApiName → String) (net : Net) (rand : Nat) (p pref : String)
        (a : ApiName) (e : String),
      p ≠ "" → preferredOf pref = some a → env a ≠ "" →
      serverCall net a p = .error e →
      serverRoute env net rand p pref =
        ⟨.fallback (generateSmartResponse p rand) ("Requested API failed: " ++ e),
          [(a, p)], [pref ++ ": " ++ e]⟩) ∧
    (∀ (env : ApiName → String) (net : Net) (evalJs : String → Option String)
        (c : Nat) (p pref t : String) (a : ApiName) (e : String),
      p ≠ "" → preferredOf pref = some a → env a ≠ "" →
      callSpecificAPI004 net a (buildPrompt evalJs p t false) false = .error e →
      route004 env net evalJs c p pref t =
        ⟨.fallback (generateFallback p t) e,
          [(a, buildPrompt evalJs p t false)], []⟩) := by
  constructor
  · intro env net rand p pref a e hp hpref hk hcall
    simp [serverRoute, if_neg hp, hpref, if_neg hk, hcall]
  · intro env net evalJs c p pref t a e hp hpref hk hcall
    simp [route004, if_neg hp, hpref, if_neg hk, hcall]

/-- Witness for C3's amended theorem: pinned `gemini`, credential present,
call rejected with `"boom"`. -/
theorem c3_amended_witness :
    serverRoute envAll netBoom 1 "hello" "gemini" =
      ⟨.fallback (generateSmartResponse "hello" 1) "Requested API failed: boom",
        [(.gemini, "hello")], ["gemini: boom"]⟩ :=
  c3_amended_preferred_failure.1 envAll netBoom 1 "hello" "gemini" .gemini "boom"
    (by decide) rfl (by decide) rfl

/- ## Claim C4 -/

/-- Claim C4 is false for part_000: its guard is `if (!prompt && !tool)`,
so a request with an empty prompt but a tool selected is not rejected — the
handler builds the tool prompt, issues a provider fetch (the Boolean
`true`), and answers 200. -/
theorem c4_counterexample :
    route000 "k" net000Tags reqToolOnly = (.ok "tags", true) ∧
    reqToolOnly.prompt = "" ∧
    (route000 "k" net000Tags reqToolOnly).1.status = 200 := by
  exact ⟨rfl, rfl, rfl⟩

/-- Claim C4 (amended): in `server.js` and part_004 an empty or missing
prompt yields 400 `"Prompt is required"` with no provider call; in part_000
the same holds only when no tool is requested either (400
`"Missing prompt"`), since its guard is `!prompt && !tool`. -/
theorem c4_amended_missing_prompt :
    (∀ (env : ApiName → String) (net : Net) (rand : Nat) (pref : String),
      serverRoute env net rand "" pref = ⟨.badRequest "Prompt is required", [], []⟩) ∧
    (∀ (env : ApiName → String) (net : Net) (evalJs : String → Option String)
        (c : Nat) (pref t : String),
      route004 env net evalJs c "" pref t =
        ⟨.badRequest "Prompt is required", [], []⟩) ∧
    (∀ (key : String) (net000 : String → Except String (Option String)) (r : Req000),
      r.prompt = "" → r.tool = "" →
      route000 key net000 r = (.badRequest "Missing prompt", false)) := by
  refine ⟨fun env net rand pref => rfl, fun env net evalJs c pref t => rfl,
    fun key net000 r h1 h2 => ?_⟩
  simp [route000, h1, h2]

/-- Witness for C4's amended theorem. -/
theorem c4_amended_witness :
    serverRoute envAll netErr 0 "" "auto" = ⟨.badRequest "Prompt is required", [], []⟩ ∧
    route000 "k" net000Tags ⟨"", "", "", "", "", "", "", 70⟩ =
      (.badRequest "Missing prompt", false) :=
  ⟨c4_amended_missing_prompt.1 envAll netErr 0 "auto",
   c4_amended_missing_prompt.2.2 "k" net000Tags ⟨"", "", "", "", "", "", "", 70⟩ rfl rfl⟩

/- ## Claim C5 -/

/-- Claim C5 is false at one point: in `server.js`, a non-empty prompt that
pins a provider whose credential is missing (here with no credentials
configured at all) is answered with 400 `"<name> API key not configured"`
— not with the 200 fallback. -/
theorem c5_counterexample :
    serverRoute envNone netErr 0 "hi" "gemini" =
      ⟨.badRequest "gemini API key not configured", [], []⟩ ∧
    (serverRoute envNone netErr 0 "hi" "gemini").response.status = 400 := by
  exact ⟨by decide, by decide⟩

/-- Claim C5 (amended): with a non-empty prompt, when every credentialed
provider's call fails the handler never raises: `server.js`'s auto branch
answers 200 with the `generateSmartResponse` fallback, and part_004 answers
200 with `generateFallback` under any preference (including a pinned
keyless provider).  The exception is `server.js` with a pinned keyless
provider, which answers 400 (the counterexample). -/
theorem c5_amended_exhaustion :
    (∀ (env : ApiName → String) (net : Net) (rand : Nat) (p : String),
      p ≠ "" → (∀ b, env b ≠ "" → ∃ e, serverCall net b p = .error e) →
      (serverRoute env net rand p "auto").response.fallbackReply =
        some (generateSmartResponse p rand) ∧
      (serverRoute env net rand p "auto").response.status = 200) ∧
    (∀ (env : ApiName → String) (net : Net) (evalJs : String → Option String)
        (c : Nat) (p pref t : String),
      p ≠ "" →
      (∀ a, ∃ e, callSpecificAPI004 net a (buildPrompt evalJs p t false) false = .error e) →
      (route004 env net evalJs c p pref t).response.fallbackReply =
        some (generateFallback p t) ∧
      (route004 env net evalJs c p pref t).response.status = 200) := by
  constructor
  · intro env net rand p hp hexh
    have hresp := serverAutoLoop_exhausted env net p serverApiOrder
      (fun b _ => by
        by_cases hk : env b = ""
        · exact Or.inl hk
        · exact Or.inr (hexh b hk))
    simp [serverRoute, if_neg hp, preferredOf, hresp,
      PromptResponse.fallbackReply, PromptResponse.status]
  · intro env net evalJs c p pref t hp hexh
    cases hpref : preferredOf pref with
    | none =>
      have hresp := autoLoop004_exhausted env net (buildPrompt evalJs p t false) hexh apiOrder004
      simp [route004, if_neg hp, hpref, hresp,
        PromptResponse.fallbackReply, PromptResponse.status]
    | some a =>
      by_cases hk : env a = ""
      · simp [route004, if_neg hp, hpref, hk,
          PromptResponse.fallbackReply, PromptResponse.status]
      · obtain ⟨e, he⟩ := hexh a
        simp [route004, if_neg hp, hpref, hk, he,
          PromptResponse.fallbackReply, PromptResponse.status]

/-- Witness for C5's amended theorem: all credentials present, every call
failing fast, in both routers. -/
theorem c5_amended_witness :
    ((serverRoute envAll netErr 3 "yo" "auto").response.fallbackReply =
        some (generateSmartResponse "yo" 3) ∧
      (serverRoute envAll netErr 3 "yo" "auto").response.status = 200) ∧
    ((route004 envAll netErr evalNone 70 "yo" "auto" "facebook").response.fallbackReply =
        some (generateFallback "yo" "facebook") ∧
      (route004 envAll netErr evalNone 70 "yo" "auto" "facebook").response.status = 200) :=
  ⟨c5_amended_exhaustion.1 envAll netErr 3 "yo" (by decide)
      (fun b _ => ⟨"down", rfl⟩),
   c5_amended_exhaustion.2 envAll netErr evalNone 70 "yo" "auto" "facebook" (by decide)
      (fun a => ⟨"down", rfl⟩)⟩

/- ## Claim C6 -/

/-- Claim C6 is false for `server.js`'s fallback generator: two invocations
of `generateSmartResponse` with the identical prompt can yield different
text, because the choice among the three `businessResponses` is driven by
`Math.random()` — here the draws `0` and `1`. -/
theorem c6_counterexample :
    generateSmartResponse "x" 0 ≠ generateSmartResponse "x" 1 := by
  decide

/-- Claim C6 (amended): part_004's fallback body is a pure function of
`(text, template)`: whatever the environment, network outcomes, `eval`
oracle, creativity and preference, a fallback response of `route004`
carries exactly `generateFallback text template` — so two invocations with
identical `(text, template)` yield identical fallback text.  `server.js`'s
`generateSmartResponse` additionally depends on the random draw (the
counterexample). -/
theorem c6_amended_fallback_determinism :
    ∀ (env : ApiName → String) (net : Net) (evalJs : String → Option String)
      (c : Nat) (p pref t b m : String),
      (route004 env net evalJs c p pref t).response = .fallback b m →
      b = generateFallback p t := by
  intro env net evalJs c p pref t b m h
  by_cases hp : p = ""
  · simp [route004, hp] at h
  · cases hpref : preferredOf pref with
    | some a =>
      by_cases hk : env a = ""
      · simp [route004, if_neg hp, hpref, hk] at h
        exact h.1.symm
      · cases hcall : callSpecificAPI004 net a (buildPrompt evalJs p t false) false with
        | ok s =>
          by_cases hs : s = ""
          · simp [route004, if_neg hp, hpref, hk, hcall, hs] at h
            exact h.1.symm
          · simp [route004, if_neg hp, hpref, hk, hcall, hs] at h
        | error e =>
          simp [route004, if_neg hp, hpref, hk, hcall] at h
          exact h.1.symm
    | none =>
      cases hloop : (autoLoop004 env net (buildPrompt evalJs p t false) apiOrder004).response with
      | none =>
        simp [route004, if_neg hp, hpref, hloop] at h
        exact h.1.symm
      | some v =>
        cases hv : truthy v with
        | true => simp [route004, if_neg hp, hpref, hloop, hv] at h
        | false =>
          simp [route004, if_neg hp, hpref, hloop, hv] at h
          exact h.1.symm

/-- Witness for C6's amended theorem, at an invocation whose providers all
lack credentials (so the fallback is taken). -/
theorem c6_amended_witness :
    generateFallback "x" "facebook" = generateFallback "x" "facebook" :=
  c6_amended_fallback_determinism envNone netErr evalNone 70 "x" "auto" "facebook"
    (generateFallback "x" "facebook") "All APIs failed to generate response"
    (by decide)

/- ## Claim C7 -/

/-- Claim C7 is false for `server.js`: with `openrouter` resolving with an
empty body and `huggingface` configured and set to succeed with `"hello"`,
the loop breaks at `openrouter`, records nothing in the log, abandons
`huggingface`, and the request degrades to the 200 fallback. -/
theorem c7_counterexample :
    serverRoute envC7x netC7x 0 "hi" "auto" =
      ⟨.fallback (generateSmartResponse "hi" 0) "All APIs failed: ",
        [(.openrouter, "hi")], []⟩ ∧
    envC7x .huggingface ≠ "" ∧
    serverCall netC7x .huggingface "hi" = .ok (some "hello") := by
  exact ⟨by decide, by decide, rfl⟩

/-- Claim C7 (amended): in part_004 an empty reply is that provider's
failure and the loop continues to the next candidate (`openai` empty,
`gemini` succeeds — both are attempted and `gemini`'s reply is returned;
no attempt log exists, failures go to the console only).  In `server.js` a
provider resolving with an empty body instead stops the loop with no log
entry and the request degrades to the local fallback, abandoning the
remaining candidates — though the empty body is never returned to the
caller either. -/
theorem c7_amended_empty_body :
    (∀ (env : ApiName → String) (net : Net) (evalJs : String → Option String)
        (c : Nat) (p t : String) (d₁ d₂ : Nat) (s : String),
      p ≠ "" →
      env .openai ≠ "" →
      net .openai (buildPrompt evalJs p t false) = (d₁, .ok (some "")) → d₁ < 15000 →
      env .gemini ≠ "" →
      net .gemini (buildPrompt evalJs p t false) = (d₂, .ok (some s)) → d₂ < 15000 →
      s ≠ "" →
      route004 env net evalJs c p "auto" t =
        ⟨.ok s (apiKeyString .gemini),
          [(.openai, buildPrompt evalJs p t false),
           (.gemini, buildPrompt evalJs p t false)], []⟩) ∧
    (∀ (env : ApiName → String) (net : Net) (rand : Nat) (p : String),
      p ≠ "" → env .openrouter ≠ "" →
      serverCall net .openrouter p = .ok (some "") →
      serverRoute env net rand p "auto" =
        ⟨.fallback (generateSmartResponse p rand) "All APIs failed: ",
          [(.openrouter, p)], []⟩) := by
  constructor
  · intro env net evalJs c p t d₁ d₂ s hp hk1 hn1 hd1 hk2 hn2 hd2 hs
    have h1 := callSpecificAPI004_empty net .openai _ d₁ hn1 hd1
    have h2 := callSpecificAPI004_ok net .gemini _ d₂ s hn2 hd2 hs (by decide)
    simp [route004, if_neg hp, preferredOf, apiOrder004, autoLoop004,
      if_neg hk1, if_neg hk2, h1, h2, truthy, hs]
  · intro env net rand p hp hk hcall
    have H := serverAutoLoop_first_success env net p [] .openrouter
      [.huggingface, .gemini, .cohere, .openai] (some "") (by simp) hk hcall
    simp only [List.nil_append, List.map_nil, List.filter_nil] at H
    simp [serverRoute, if_neg hp, preferredOf, serverApiOrder, H, truthy,
      String.intercalate]

/-- Witness for C7's amended theorem: `openai` empty-bodied, `gemini`
succeeding with `"reply"`. -/
theorem c7_amended_witness :
    route004 envOG netEmptyOpenai evalNone 70 "hello" "auto" "default" =
      ⟨.ok "reply" (apiKeyString .gemini),
        [(.openai, buildPrompt evalNone "hello" "default" false),
         (.gemini, buildPrompt evalNone "hello" "default" false)], []⟩ :=
  c7_amended_empty_body.1 envOG netEmptyOpenai evalNone 70 "hello" "default"
    100 100 "reply" (by decide) (by decide) rfl (by decide) (by decide) rfl
    (by decide) (by decide)

/- ## Claim C8 -/

/-- Claim C8 is false for `server.js`: its `callSpecificAPI` has no timeout
wrapper, so a call whose response only arrives after 10^9 ms — far beyond
any per-provider bound — is still awaited and returned as the successful
result rather than treated as a failure. -/
theorem c8_counterexample :
    (netSlow .openrouter "hi").1 = 1000000000 ∧
    15000 < (netSlow .openrouter "hi").1 ∧
    serverRoute envPrefOR netSlow 0 "hi" "auto" =
      ⟨.ok "late" "openrouter", [(.openrouter, "hi")], []⟩ := by
  exact ⟨rfl, by decide, by decide⟩

/-- Claim C8 (amended): in part_004 every provider call is raced against a
15000 ms timeout (5000 ms for status probes): a response arriving beyond
the bound surfaces as that provider's timeout rejection only, and the auto
loop continues to the next candidate — here `openai` times out and
`gemini`'s reply is returned, the whole request still succeeding.
`server.js` issues its calls with no timeout bound at all (the
counterexample). -/
theorem c8_amended_timeout :
    ∀ (env : ApiName → String) (net : Net) (evalJs : String → Option String)
      (c : Nat) (p t : String) (d₁ d₂ : Nat)
      (x : Except String (Option String)) (s : String),
      p ≠ "" →
      env .openai ≠ "" →
      net .openai (buildPrompt evalJs p t false) = (d₁, x) → 15000 < d₁ →
      env .gemini ≠ "" →
      net .gemini (buildPrompt evalJs p t false) = (d₂, .ok (some s)) → d₂ < 15000 →
      s ≠ "" →
      callSpecificAPI004 net .openai (buildPrompt evalJs p t false) false =
        .error (apiLabel .openai ++ " timeout after " ++ toString 15000 ++ "ms") ∧
      route004 env net evalJs c p "auto" t =
        ⟨.ok s (apiKeyString .gemini),
          [(.openai, buildPrompt evalJs p t false),
           (.gemini, buildPrompt evalJs p t false)], []⟩ := by
  intro env net evalJs c p t d₁ d₂ x s hp hk1 hn1 hd1 hk2 hn2 hd2 hs
  have h1 := callSpecificAPI004_timeout net .openai _ d₁ x hn1 (le_of_lt hd1)
  have h2 := callSpecificAPI004_ok net .gemini _ d₂ s hn2 hd2 hs (by decide)
  refine ⟨h1, ?_⟩
  simp [route004, if_neg hp, preferredOf, apiOrder004, autoLoop004,
    if_neg hk1, if_neg hk2, h1, h2, truthy, hs]

/-- Witness for C8's amended theorem: `openai`'s response arrives after
20000 ms, `gemini` replies promptly. -/
theorem c8_amended_witness :
    callSpecificAPI004 netTimeoutOpenai .openai
        (buildPrompt evalNone "hello" "default" false) false =
      .error (apiLabel .openai ++ " timeout after " ++ toString 15000 ++ "ms") ∧
    route004 envOG netTimeoutOpenai evalNone 70 "hello" "auto" "default" =
      ⟨.ok "reply" (apiKeyString .gemini),
        [(.openai, buildPrompt evalNone "hello" "default" false),
         (.gemini, buildPrompt evalNone "hello" "default" false)], []⟩ :=
  c8_amended_timeout envOG netTimeoutOpenai evalNone 70 "hello" "default"
    20000 100 (.ok (some "x")) "reply" (by decide) (by decide) rfl (by decide)
    (by decide) rfl (by decide) (by decide)

/- ## Claim C9 -/

/-- Claim C9 is false: part_000's image handler answers 400 `"No prompt"`
(and every other variant likewise rejects a missing prompt) rather than
never returning an error. -/
theorem c9_counterexample :
    imageRoute000 none 0 "" "x" = .badRequest "No prompt" ∧
    (imageRoute000 none 0 "" "x").statusCode = 400 := by
  exact ⟨rfl, rfl⟩

/-- Claim C9 (amended): for requests carrying a non-empty prompt the image
endpoints never error: part_000 answers 200 with a one-element image list
sourced `"gallery"` or `"placeholder"` whatever the manifest state, and
part_003 answers 200 with its placeholder URL.  A missing prompt, however,
is answered 400 in every variant (the counterexample). -/
theorem c9_amended_image_route :
    (∀ (gallery : Option (List (String × List String))) (rand : Nat) (p t : String),
      p ≠ "" →
      (imageRoute000 gallery rand p t).statusCode = 200 ∧
      ((imageRoute000 gallery rand p t).sourceOf = some "gallery" ∨
        (imageRoute000 gallery rand p t).sourceOf = some "placeholder") ∧
      Option.map List.length (imageRoute000 gallery rand p t).imagesOf = some 1) ∧
    (∀ p : String, p ≠ "" →
      imageRoute003 p =
        .ok ["https://via.placeholder.com/512x512.png?text=" ++
          encodeURIComponent (p.take 40)]) := by
  constructor
  · intro gallery rand p t hp
    refine ⟨?_, ?_, ?_⟩ <;>
      · unfold imageRoute000
        rw [if_neg hp]
        dsimp only
        split <;>
          simp [ImageResponse.statusCode, ImageResponse.sourceOf, ImageResponse.imagesOf]
  · intro p hp
    unfold imageRoute003
    rw [if_neg hp]

/-- Witness for C9's amended theorem: a manifest with a two-image `general`
category and the prompt `"pic"`. -/
theorem c9_amended_witness :
    (imageRoute000 galleryW 1 "pic" "").statusCode = 200 ∧
    ((imageRoute000 galleryW 1 "pic" "").sourceOf = some "gallery" ∨
      (imageRoute000 galleryW 1 "pic" "").sourceOf = some "placeholder") ∧
    Option.map List.length (imageRoute000 galleryW 1 "pic" "").imagesOf = some 1 :=
  c9_amended_image_route.1 galleryW 1 "pic" "" (by decide)

/- ## Claim C10 -/

/-- Every provider call part_004's prompt handler issues carries the
handler's `finalPrompt`, i.e. `buildPrompt(prompt, template)`. -/
theorem route004_attempts_sent (env : ApiName → String) (net : Net)
    (evalJs : String → Option String) (c : Nat) (p pref t : String) :
    ∀ q ∈ (route004 env net evalJs c p pref t).attempts,
      q.2 = buildPrompt evalJs p t false := by
  intro q hq
  by_cases hp : p = ""
  · simp [route004, hp] at hq
  · cases hpref : preferredOf pref with
    | some a =>
      by_cases hk : env a = ""
      · simp [route004, if_neg hp, hpref, hk] at hq
      · cases hcall : callSpecificAPI004 net a (buildPrompt evalJs p t false) false with
        | ok s =>
          by_cases hs : s = ""
          · simp [route004, if_neg hp, hpref, hk, hcall, hs] at hq
            rw [hq]
          · simp [route004, if_neg hp, hpref, hk, hcall, hs] at hq
            rw [hq]
        | error e =>
          simp [route004, if_neg hp, hpref, hk, hcall] at hq
          rw [hq]
    | none =>
      have hmem : q ∈ (autoLoop004 env net (buildPrompt evalJs p t false) apiOrder004).attempts := by
        cases hloop : (autoLoop004 env net (buildPrompt evalJs p t false) apiOrder004).response with
        | none =>
          simpa [route004, if_neg hp, hpref, hloop] using hq
        | some v =>
          cases hv : truthy v with
          | true => simpa [route004, if_neg hp, hpref, hloop, hv] using hq
          | false => simpa [route004, if_neg hp, hpref, hloop, hv] using hq
      exact autoLoop004_attempts_prompt env net (buildPrompt evalJs p t false)
        apiOrder004 q hmem

/-- Claim C10: in part_004, a prompt matching `^[0-9+\-*\/().\s]+$` is
evaluated locally: the prompt actually sent to every provider is
`"The result of <prompt> is <value>"` with the `eval` result, or
`"Invalid math expression: <prompt>"` when evaluation throws — while the
handler's responses keep their ordinary shape, so the local evaluation is
invisible at the API contract. -/
theorem c10_math_prompt :
    ∀ (env : ApiName → String) (net : Net) (evalJs : String → Option String)
      (c : Nat) (p pref t : String),
      isMathPrompt p = true →
      (∀ v, evalJs p = some v →
        buildPrompt evalJs p t false = "The result of " ++ p ++ " is " ++ v) ∧
      (evalJs p = none →
        buildPrompt evalJs p t false = "Invalid math expression: " ++ p) ∧
      (∀ q ∈ (route004 env net evalJs c p pref t).attempts,
        q.2 = buildPrompt evalJs p t false) := by
  intro env net evalJs c p pref t hmath
  refine ⟨?_, ?_, route004_attempts_sent env net evalJs c p pref t⟩
  · intro v hv
    simp [buildPrompt, hmath, hv]
  · intro hv
    simp [buildPrompt, hmath, hv]

/-- Witness for C10: `eval("2+3")` is `5`, so the prompt built for the
providers is `"The result of 2+3 is 5"`. -/
theorem c10_witness :
    buildPrompt evalC10 "2+3" "default" false =
      "The result of " ++ "2+3" ++ " is " ++ "5" :=
  (c10_math_prompt envG netOkAll evalC10 70 "2+3" "auto" "default" (by decide)).1
    "5" rfl
